import Mathlib

/-!
Verification of the update client in src/client.go (a device-side update
agent transport layer): client construction with optional TLS trust
material, the update-check protocol (status classification, JSON decoding,
descriptor validation) and the size-guarded download path.

Modelling conventions:
* Go error values are an inductive type: each errors.New site in the source
  is one constructor, distinct construction sites giving distinct values
  (as in Go, where errors.New always yields a fresh value).
* JSON decoding is an external platform primitive; the bytes of a response
  body are represented by the outcome json.Unmarshal has on them.
* The filesystem and the X.509 loader are an explicit environment record;
  the content of a certificate file is represented by the list of
  certificates PEM parsing extracts from it.
* Functions returning Go pairs (value, error) return pairs of options;
  functions that can only fail return Except.
-/

set_option autoImplicit false

namespace Mender

/-- Go error values of the client. One constructor per error site in
src/client.go; constructors carrying a message wrap an error produced by
the platform (transport, file read, JSON decoding) and passed through. -/
inductive ClientError where
  /-- error returned by HTTPClient.Do, propagated unchanged -/
  | transportErr (msg : String)
  /-- error returned by ioutil.ReadAll on the response body, propagated unchanged -/
  | readErr (msg : String)
  /-- errors.New of the message: Error parsing data syntax (the json.SyntaxError case) -/
  | malformedData
  /-- errors.New of: Error parsing data: ... (any other json.Unmarshal error) -/
  | decodeErr (msg : String)
  /-- errors.New of: Missing parameters in encoded JSON response -/
  | missingParameters
  /-- errors.New of: Client not authorized to get update schedule. -/
  | notAuthorized
  /-- errors.New of: Invalid response received from server -/
  | invalidResponse
  /-- errors.New of: Will not continue with unknown image size. -/
  | unknownImageSize
  /-- errors.New of: Less than ... image update ... Something is wrong, aborting. -/
  | implausiblySmall
  /-- error returned by ioutil.ReadFile in initServerTrust, propagated unchanged -/
  | ioErr (msg : String)
  /-- the package-level value errorAddingServerCertificateToPool -/
  | errAddingServerCertToPool
  /-- the package-level value errorLoadingClientCertificate -/
  | errLoadingClientCert
deriving DecidableEq, Repr

/-- minimumImageSize int64 = 4096 (source comment says kB, but the value is
compared directly against a byte count, with no unit conversion). -/
def minimumImageSize : Int := 4096

/-- The nested anonymous Image struct of UpdateResponse. -/
structure Image where
  URI : String
  Checksum : String
  ID : String
deriving DecidableEq, Repr

/-- type UpdateResponse: the decoded update descriptor. -/
structure UpdateResponse where
  Image : Image
  ID : String
deriving DecidableEq, Repr

/-- Outcome of json.Unmarshal on a response body: success with decoded
data, a json.SyntaxError, or any other decoding error. -/
inductive UnmarshalResult where
  | ok (data : UpdateResponse)
  | synErr
  | otherErr (msg : String)
deriving DecidableEq, Repr

/-- Abstract body bytes: JSON decoding is an external platform primitive,
so the bytes of a body are represented by the outcome json.Unmarshal has
on them. -/
abbrev Bytes := UnmarshalResult

/-- json.Unmarshal into an UpdateResponse, under the representation of
bytes by their decoding outcome. -/
def jsonUnmarshal (b : Bytes) : UnmarshalResult := b

instance instDecEqExcept {ε α : Type} [DecidableEq ε] [DecidableEq α] :
    DecidableEq (Except ε α) := fun x y =>
  match x, y with
  | Except.error a, Except.error b =>
    if h : a = b then isTrue (congrArg Except.error h)
    else isFalse (fun hh => h (Except.error.inj hh))
  | Except.ok a, Except.ok b =>
    if h : a = b then isTrue (congrArg Except.ok h)
    else isFalse (fun hh => h (Except.ok.inj hh))
  | Except.error _, Except.ok _ => isFalse (fun hh => Except.noConfusion hh)
  | Except.ok _, Except.error _ => isFalse (fun hh => Except.noConfusion hh)

/-- A response body stream: an opaque resource handle plus the result
ioutil.ReadAll yields on it (a read error, or the bytes). -/
structure BodyStream where
  handle : Nat
  readAll : Except String Bytes
deriving DecidableEq, Repr

/-- The fields of http.Response that the client reads. -/
structure HttpResponse where
  statusCode : Nat
  contentLength : Int
  body : BodyStream
deriving DecidableEq, Repr

/-- Result of makeAndSendRequest: a transport error from HTTPClient.Do or
a response. -/
abbrev ReqOutcome := Except String HttpResponse

-- API status constants from the source.

/-- updateResponseHaveUpdate = 200 -/
def updateResponseHaveUpdate : Nat := 200

/-- updateResponseNoUpdates = 204 -/
def updateResponseNoUpdates : Nat := 204

/-- updateResponseError = 404 -/
def updateResponseError : Nat := 404

/-- func validateGetUpdate: succeeds (nil error) exactly when all four
string fields of the decoded response are non-empty. -/
def validateGetUpdate (update : UpdateResponse) : Option ClientError :=
  if update.ID ≠ "" ∧ update.Image.ID ≠ "" ∧ update.Image.Checksum ≠ "" ∧ update.Image.URI ≠ "" then
    none
  else
    some ClientError.missingParameters

/-- func processUpdateResponse: reads the whole body, then switches on the
status code; on 200 decodes the body, distinguishes a json.SyntaxError
from other decode errors, and validates the decoded data. Returns the Go
pair (interface value, error) as a pair of options. -/
def processUpdateResponse (response : HttpResponse) :
    Option UpdateResponse × Option ClientError :=
  match response.body.readAll with
  | Except.error msg => (none, some (ClientError.readErr msg))
  | Except.ok respBody =>
    if response.statusCode = updateResponseHaveUpdate then
      match jsonUnmarshal respBody with
      | UnmarshalResult.synErr => (none, some ClientError.malformedData)
      | UnmarshalResult.otherErr msg => (none, some (ClientError.decodeErr msg))
      | UnmarshalResult.ok data =>
        match validateGetUpdate data with
        | some e => (none, some e)
        | none => (some data, none)
    else if response.statusCode = updateResponseNoUpdates then
      (none, none)
    else if response.statusCode = updateResponseError then
      (none, some ClientError.notAuthorized)
    else
      (none, some ClientError.invalidResponse)

/-- type RequestProcessingFunc func(*http.Response) (interface, error). -/
abbrev RequestProcessingFunc := HttpResponse → Option UpdateResponse × Option ClientError

/-- Return value of GetScheduledUpdate, extended with the list of body
handles closed during the call (the effect of defer r.Body.Close()).
The type has no stream component: the body is never part of the return. -/
structure CheckReturn where
  data : Option UpdateResponse
  err : Option ClientError
  closedBodies : List Nat
deriving DecidableEq, Repr

/-- func (c httpClient) GetScheduledUpdate: on transport failure returns
the error at once (no response exists, so no body is read or closed);
otherwise defers closing of the body and returns what process yields. -/
def GetScheduledUpdate (process : RequestProcessingFunc) (outcome : ReqOutcome) :
    CheckReturn :=
  match outcome with
  | Except.error e => ⟨none, some (ClientError.transportErr e), []⟩
  | Except.ok r =>
    let pr := process r
    ⟨pr.1, pr.2, [r.body.handle]⟩

/-- A certificate, opaque to the client (parsed by the platform). -/
abbrev Cert := Nat

/-- A client certificate and key pair, opaque to the client. -/
abbrev KeyPair := Nat

/-- Abstract content of a certificate file: PEM parsing is an external
platform primitive, so the content is represented by the list of
certificates x509.CertPool.AppendCertsFromPEM extracts from it. -/
abbrev PemBytes := List Cert

/-- x509.CertPool.AppendCertsFromPEM, under the representation of file
content by the certificates it parses to. -/
def appendCertsFromPEM (pool : List Cert) (cacert : PemBytes) : List Cert :=
  pool ++ cacert

/-- type httpsClientConfig: three filesystem paths, any may be empty. -/
structure httpsClientConfig where
  certFile : String
  certKey : String
  serverCert : String
deriving DecidableEq, Repr

/-- The platform primitives used during construction: ioutil.ReadFile and
tls.LoadX509KeyPair. -/
structure Env where
  readFile : String → Except String PemBytes
  loadX509KeyPair : String → String → Except String KeyPair

/-- The TLS transport installed by NewHttpsClient: the trusted pool as
RootCAs and the client certificate. none for the client certificate means
the zero value was kept (no credential loaded). -/
structure TlsTransport where
  rootCAs : List Cert
  clientCert : Option KeyPair
deriving DecidableEq, Repr

/-- Which of the two client variants was built. -/
inductive ClientKind where
  | plain
  | secure
deriving DecidableEq, Repr

/-- The client state: variant, the minImageSize field of httpClient, and
the transport (none means the default http.Client transport). -/
structure Client where
  kind : ClientKind
  minImageSize : Int
  tlsTransport : Option TlsTransport
deriving DecidableEq, Repr

/-- func (c httpsClient) initServerTrust: empty path means trust all
servers (warning logged, empty pool); otherwise the file is read (a read
error is returned unchanged) and the parsed pool must be non-empty, else
errorAddingServerCertificateToPool. Returns the trusted pool. -/
def initServerTrust (env : Env) (conf : httpsClientConfig) :
    Except ClientError (List Cert) :=
  if conf.serverCert = "" then
    Except.ok []
  else
    match env.readFile conf.serverCert with
    | Except.error e => Except.error (ClientError.ioErr e)
    | Except.ok cacert =>
      let trustedCerts := appendCertsFromPEM [] cacert
      if trustedCerts.length = 0 then
        Except.error ClientError.errAddingServerCertToPool
      else
        Except.ok trustedCerts

/-- func (c httpsClient) initClientCert: empty cert or key path keeps the
auto-generated credential (warning logged); otherwise the pair is loaded,
a load failure yielding errorLoadingClientCertificate. -/
def initClientCert (env : Env) (conf : httpsClientConfig) :
    Except ClientError (Option KeyPair) :=
  if conf.certFile = "" ∨ conf.certKey = "" then
    Except.ok none
  else
    match env.loadX509KeyPair conf.certFile conf.certKey with
    | Except.error _ => Except.error ClientError.errLoadingClientCert
    | Except.ok clientCert => Except.ok (some clientCert)

/-- func NewHttpClient: a plain client with the default transport and
minImageSize = minimumImageSize. Never fails. -/
def NewHttpClient : Client :=
  ⟨ClientKind.plain, minimumImageSize, none⟩

/-- func NewHttpsClient: builds on NewHttpClient, runs initServerTrust and
initClientCert, returning nil (none) when either fails, and otherwise
installs the TLS transport. -/
def NewHttpsClient (env : Env) (conf : httpsClientConfig) : Option Client :=
  match initServerTrust env conf with
  | Except.error _ => none
  | Except.ok trustedCerts =>
    match initClientCert env conf with
    | Except.error _ => none
    | Except.ok clientCert =>
      some ⟨ClientKind.secure, (NewHttpClient).minImageSize,
            some ⟨trustedCerts, clientCert⟩⟩

/-- func NewUpdater: the all-empty configuration selects the plain client,
anything else the https client. -/
def NewUpdater (env : Env) (conf : httpsClientConfig) : Option Client :=
  if conf = ⟨"", "", ""⟩ then
    some NewHttpClient
  else
    NewHttpsClient env conf

/-- Return value of FetchUpdate: the Go triple (io.ReadCloser, int64,
error) as (optional stream, length, optional error). -/
structure FetchReturn where
  stream : Option BodyStream
  length : Int
  err : Option ClientError
deriving DecidableEq, Repr

/-- func (c httpClient) FetchUpdate: propagates a transport error with
(nil, -1); rejects a negative content length with (nil, -1, unknown size)
and a length below c.minImageSize with (nil, -1, implausibly small);
otherwise hands the body stream and the declared length to the caller. -/
def FetchUpdate (c : Client) (outcome : ReqOutcome) : FetchReturn :=
  match outcome with
  | Except.error e => ⟨none, -1, some (ClientError.transportErr e)⟩
  | Except.ok r =>
    if r.contentLength < 0 then
      ⟨none, -1, some ClientError.unknownImageSize⟩
    else if r.contentLength < c.minImageSize then
      ⟨none, -1, some ClientError.implausiblySmall⟩
    else
      ⟨some r.body, r.contentLength, none⟩

/-- GetScheduledUpdate as a method on its receiver: the request is issued
through the network behaviour net, a function of the client transport and
the URL. The source never assigns to a receiver field, so the method
returns its receiver unchanged alongside the call result. -/
def GetScheduledUpdateM (c : Client) (process : RequestProcessingFunc)
    (net : Client → String → ReqOutcome) (server : String) :
    CheckReturn × Client :=
  (GetScheduledUpdate process (net c server), c)

/-! Concrete inputs used by the witnesses below. -/

def goodData : UpdateResponse := ⟨⟨"https://server/image", "abc123", "image-1"⟩, "update-1"⟩

def badData : UpdateResponse := ⟨⟨"", "abc123", "image-1"⟩, "update-1"⟩

def respGood : HttpResponse := ⟨200, 0, ⟨1, Except.ok (UnmarshalResult.ok goodData)⟩⟩

def respMissing : HttpResponse := ⟨200, 0, ⟨2, Except.ok (UnmarshalResult.ok badData)⟩⟩

def resp204 : HttpResponse := ⟨204, 0, ⟨3, Except.ok (UnmarshalResult.otherErr "empty body")⟩⟩

def resp404 : HttpResponse := ⟨404, 0, ⟨4, Except.ok (UnmarshalResult.otherErr "empty body")⟩⟩

def resp500 : HttpResponse := ⟨500, 0, ⟨5, Except.ok (UnmarshalResult.otherErr "server error page")⟩⟩

def respSyn : HttpResponse := ⟨200, 0, ⟨6, Except.ok UnmarshalResult.synErr⟩⟩

def respOther : HttpResponse := ⟨200, 0, ⟨7, Except.ok (UnmarshalResult.otherErr "cannot unmarshal string")⟩⟩

def respLenNeg : HttpResponse := ⟨200, -1, ⟨8, Except.ok (UnmarshalResult.otherErr "binary")⟩⟩

def respLenSmall : HttpResponse := ⟨200, 100, ⟨9, Except.ok (UnmarshalResult.otherErr "binary")⟩⟩

def respLenOk : HttpResponse := ⟨500, 5000, ⟨10, Except.ok (UnmarshalResult.otherErr "binary")⟩⟩

def envUnreadable : Env :=
  ⟨fun _ => Except.error "no such file or directory",
   fun _ _ => Except.error "no keypair"⟩

def envNoPem : Env :=
  ⟨fun _ => Except.ok [],
   fun _ _ => Except.error "no keypair"⟩

def confServerOnly : httpsClientConfig := ⟨"", "", "/certs/server.crt"⟩

/-- On a 200 response whose body reads and decodes to data, processing
reduces to validation of the decoded data. -/
theorem processUpdateResponse_ok200 (r : HttpResponse) (data : UpdateResponse)
    (hs : r.statusCode = 200)
    (hb : r.body.readAll = Except.ok (UnmarshalResult.ok data)) :
    processUpdateResponse r =
      match validateGetUpdate data with
      | some e => (none, some e)
      | none => (some data, none) := by
  unfold processUpdateResponse
  rw [hb, hs]
  rfl

/-- Claim C1: on a status 200 response whose body decodes to a descriptor,
the check succeeds and returns the descriptor exactly when all four string
fields (ID, Image.ID, Image.Checksum, Image.URI) are non-empty; when any
one of them is empty it fails with the missing-parameters error and no
descriptor is returned as success. -/
theorem C1_descriptor_validation (r : HttpResponse) (data : UpdateResponse)
    (hs : r.statusCode = 200)
    (hb : r.body.readAll = Except.ok (UnmarshalResult.ok data)) :
    (processUpdateResponse r = (some data, none) ↔
      data.ID ≠ "" ∧ data.Image.ID ≠ "" ∧ data.Image.Checksum ≠ "" ∧ data.Image.URI ≠ "")
    ∧ ((data.ID = "" ∨ data.Image.ID = "" ∨ data.Image.Checksum = "" ∨ data.Image.URI = "") →
      processUpdateResponse r = (none, some ClientError.missingParameters)) := by
  have hp := processUpdateResponse_ok200 r data hs hb
  by_cases hc : data.ID ≠ "" ∧ data.Image.ID ≠ "" ∧ data.Image.Checksum ≠ "" ∧ data.Image.URI ≠ ""
  · have hv : validateGetUpdate data = none := by
      unfold validateGetUpdate
      rw [if_pos hc]
    rw [hv] at hp
    refine ⟨⟨fun _ => hc, fun _ => hp⟩, fun hemp => ?_⟩
    rcases hc with ⟨h1, h2, h3, h4⟩
    rcases hemp with h | h | h | h
    · exact absurd h h1
    · exact absurd h h2
    · exact absurd h h3
    · exact absurd h h4
  · have hv : validateGetUpdate data = some ClientError.missingParameters := by
      unfold validateGetUpdate
      rw [if_neg hc]
    rw [hv] at hp
    refine ⟨⟨fun h => ?_, fun habs => absurd habs hc⟩, fun _ => hp⟩
    have hcontra := hp.symm.trans h
    simp at hcontra

/-- Witness for C1 at two concrete responses: an all-fields descriptor is
returned as success, and a descriptor with an empty URI fails with the
missing-parameters error. -/
theorem C1_descriptor_validation_witness :
    processUpdateResponse respGood = (some goodData, none)
    ∧ processUpdateResponse respMissing = (none, some ClientError.missingParameters) :=
  ⟨(C1_descriptor_validation respGood goodData rfl rfl).1.mpr (by decide),
   (C1_descriptor_validation respMissing badData rfl rfl).2 (by decide)⟩

/-- Claim C2: once the body is read, classification is by status code
alone (the body bytes b are arbitrary in every conjunct): 204 yields the
pair (nil, nil) with no decoding, 404 the not-authorized error, and any
other code except 200, 204, 404 the invalid-response error. -/
theorem C2_status_classification (r : HttpResponse) (b : Bytes)
    (hb : r.body.readAll = Except.ok b) :
    (r.statusCode = 204 → processUpdateResponse r = (none, none))
    ∧ (r.statusCode = 404 → processUpdateResponse r = (none, some ClientError.notAuthorized))
    ∧ (r.statusCode ≠ 200 → r.statusCode ≠ 204 → r.statusCode ≠ 404 →
      processUpdateResponse r = (none, some ClientError.invalidResponse)) := by
  refine ⟨fun h => ?_, fun h => ?_, fun h2 h4 h4' => ?_⟩
  · simp [processUpdateResponse, hb, h, updateResponseHaveUpdate, updateResponseNoUpdates]
  · simp [processUpdateResponse, hb, h, updateResponseHaveUpdate, updateResponseNoUpdates,
      updateResponseError]
  · simp [processUpdateResponse, hb, h2, h4, h4', updateResponseHaveUpdate,
      updateResponseNoUpdates, updateResponseError]

/-- Witness for C2 at statuses 204, 404 and 500. -/
theorem C2_status_classification_witness :
    processUpdateResponse resp204 = (none, none)
    ∧ processUpdateResponse resp404 = (none, some ClientError.notAuthorized)
    ∧ processUpdateResponse resp500 = (none, some ClientError.invalidResponse) :=
  ⟨(C2_status_classification resp204 (UnmarshalResult.otherErr "empty body") rfl).1 rfl,
   (C2_status_classification resp404 (UnmarshalResult.otherErr "empty body") rfl).2.1 rfl,
   (C2_status_classification resp500 (UnmarshalResult.otherErr "server error page") rfl).2.2
     (by decide) (by decide) (by decide)⟩

/-- Claim C3: on a client whose minimum image size is the literal 4096,
FetchUpdate decides by content length alone, for any status code: a
negative length yields the unknown-size error, a length in [0, 4096) the
implausibly-small error, and a length of at least 4096 the body stream
with that exact length and no error. -/
theorem C3_content_length_guard (c : Client) (r : HttpResponse)
    (hc : c.minImageSize = 4096) :
    (r.contentLength < 0 →
      FetchUpdate c (Except.ok r) = ⟨none, -1, some ClientError.unknownImageSize⟩)
    ∧ (0 ≤ r.contentLength → r.contentLength < 4096 →
      FetchUpdate c (Except.ok r) = ⟨none, -1, some ClientError.implausiblySmall⟩)
    ∧ (4096 ≤ r.contentLength →
      FetchUpdate c (Except.ok r) = ⟨some r.body, r.contentLength, none⟩) := by
  refine ⟨fun h => ?_, fun h0 h => ?_, fun h => ?_⟩
  · simp [FetchUpdate, h]
  · simp [FetchUpdate, hc, h, not_lt.mpr h0]
  · have h0 : ¬ r.contentLength < 0 := not_lt.mpr (le_trans (by norm_num) h)
    simp [FetchUpdate, hc, h0, not_lt.mpr h]

/-- Witness for C3 at declared lengths -1, 100 and 5000 on the
constructed plain client (the last response carrying status 500, since
the status is not consulted). -/
theorem C3_content_length_guard_witness :
    FetchUpdate NewHttpClient (Except.ok respLenNeg)
      = ⟨none, -1, some ClientError.unknownImageSize⟩
    ∧ FetchUpdate NewHttpClient (Except.ok respLenSmall)
      = ⟨none, -1, some ClientError.implausiblySmall⟩
    ∧ FetchUpdate NewHttpClient (Except.ok respLenOk)
      = ⟨some respLenOk.body, respLenOk.contentLength, none⟩ :=
  ⟨(C3_content_length_guard NewHttpClient respLenNeg rfl).1 (by decide),
   (C3_content_length_guard NewHttpClient respLenSmall rfl).2.1 (by decide) (by decide),
   (C3_content_length_guard NewHttpClient respLenOk rfl).2.2 (by decide)⟩

/-- Claim C4: on a status 200 response, a body failing with a JSON
syntax-level error yields the malformed-data error, any other decoding
failure yields the generic decode error carrying that failure, and the
two error values are distinct for every message, so the kinds are never
conflated. -/
theorem C4_decode_error_kinds (r : HttpResponse) (hs : r.statusCode = 200) :
    (r.body.readAll = Except.ok UnmarshalResult.synErr →
      processUpdateResponse r = (none, some ClientError.malformedData))
    ∧ (∀ msg, r.body.readAll = Except.ok (UnmarshalResult.otherErr msg) →
      processUpdateResponse r = (none, some (ClientError.decodeErr msg)))
    ∧ (∀ msg, ClientError.malformedData ≠ ClientError.decodeErr msg) := by
  refine ⟨fun hb => ?_, fun msg hb => ?_, fun msg h => ClientError.noConfusion h⟩
  · simp [processUpdateResponse, hb, hs, updateResponseHaveUpdate, jsonUnmarshal]
  · simp [processUpdateResponse, hb, hs, updateResponseHaveUpdate, jsonUnmarshal]

/-- Witness for C4 at a syntactically bad body and a body failing with a
generic decoding error. -/
theorem C4_decode_error_kinds_witness :
    processUpdateResponse respSyn = (none, some ClientError.malformedData)
    ∧ processUpdateResponse respOther
      = (none, some (ClientError.decodeErr "cannot unmarshal string")) :=
  ⟨(C4_decode_error_kinds respSyn rfl).1 rfl,
   (C4_decode_error_kinds respOther rfl).2.1 "cannot unmarshal string" rfl⟩

/-- Claim C5 counterexample: with a serverCert path naming an unreadable
file, trust initialization fails, but with the propagated read error, not
with the trust-pool error errorAddingServerCertificateToPool (the code
returns the ReadFile error before the pool is ever inspected). -/
theorem C5_trust_counterexample :
    initServerTrust envUnreadable confServerOnly =
      Except.error (ClientError.ioErr "no such file or directory")
    ∧ ClientError.ioErr "no such file or directory" ≠
      ClientError.errAddingServerCertToPool := by
  refine ⟨?_, fun h => ClientError.noConfusion h⟩
  simp [initServerTrust, envUnreadable, confServerOnly]

/-- Claim C5 (amended): for a non-empty serverCert path, an unreadable
file fails trust initialization with the propagated read error, and a
readable file containing no valid PEM certificate fails with the
trust-pool error; in both cases construction produces no client
(NewHttpsClient and NewUpdater yield none). -/
theorem C5_trust_failure_no_client (env : Env) (conf : httpsClientConfig)
    (hs : conf.serverCert ≠ "") :
    (∀ e, env.readFile conf.serverCert = Except.error e →
      initServerTrust env conf = Except.error (ClientError.ioErr e)
      ∧ NewHttpsClient env conf = none ∧ NewUpdater env conf = none)
    ∧ (env.readFile conf.serverCert = Except.ok [] →
      initServerTrust env conf = Except.error ClientError.errAddingServerCertToPool
      ∧ NewHttpsClient env conf = none ∧ NewUpdater env conf = none) := by
  have hconf : ¬ conf = (⟨"", "", ""⟩ : httpsClientConfig) := by
    intro h
    rw [h] at hs
    exact hs rfl
  refine ⟨fun e he => ?_, fun he => ?_⟩
  · have h1 : initServerTrust env conf = Except.error (ClientError.ioErr e) := by
      simp [initServerTrust, hs, he]
    exact ⟨h1, by simp [NewHttpsClient, h1],
           by simp [NewUpdater, hconf, NewHttpsClient, h1]⟩
  · have h1 : initServerTrust env conf = Except.error ClientError.errAddingServerCertToPool := by
      simp [initServerTrust, hs, he, appendCertsFromPEM]
    exact ⟨h1, by simp [NewHttpsClient, h1],
           by simp [NewUpdater, hconf, NewHttpsClient, h1]⟩

/-- Witness for the amended C5: both with an unreadable certificate file
and with a file parsing to zero certificates, NewUpdater yields no
client. -/
theorem C5_trust_failure_no_client_witness :
    NewUpdater envUnreadable confServerOnly = none
    ∧ NewUpdater envNoPem confServerOnly = none :=
  ⟨((C5_trust_failure_no_client envUnreadable confServerOnly (by decide)).1
      "no such file or directory" rfl).2.2,
   ((C5_trust_failure_no_client envNoPem confServerOnly (by decide)).2 rfl).2.2⟩

/-- Claim C6: when the GET request itself fails, both GetScheduledUpdate
and FetchUpdate return the transport error at once; no response value
exists on this path (the Except carries only the error), so no body is
read, closed or exposed, whatever the processing function and client. -/
theorem C6_transport_error_propagated (process : RequestProcessingFunc)
    (c : Client) (e : String) :
    GetScheduledUpdate process (Except.error e)
      = ⟨none, some (ClientError.transportErr e), []⟩
    ∧ FetchUpdate c (Except.error e)
      = ⟨none, -1, some (ClientError.transportErr e)⟩ :=
  ⟨rfl, rfl⟩

/-- Claim C7: construction from the all-empty configuration always
succeeds, for every environment, and yields the plain client: plain
variant, default (non-TLS) transport, the fixed minimum image size. -/
theorem C7_empty_config_plain_client (env : Env) :
    NewUpdater env ⟨"", "", ""⟩ = some NewHttpClient
    ∧ NewHttpClient.kind = ClientKind.plain
    ∧ NewHttpClient.tlsTransport = none
    ∧ NewHttpClient.minImageSize = minimumImageSize :=
  ⟨rfl, rfl, rfl, rfl⟩

/-- Claim C8: whenever the request yields a response, the body handle is
closed exactly once by GetScheduledUpdate on every exit path (the
deferred close fires whatever the processing function returns), and the
caller receives only the data and error computed by the processing
function — the return type carries no stream. -/
theorem C8_body_always_closed (process : RequestProcessingFunc) (r : HttpResponse) :
    (GetScheduledUpdate process (Except.ok r)).closedBodies = [r.body.handle]
    ∧ (GetScheduledUpdate process (Except.ok r)).data = (process r).1
    ∧ (GetScheduledUpdate process (Except.ok r)).err = (process r).2 :=
  ⟨rfl, rfl, rfl⟩

/-- Claim C9: the update check holds no mutable state: a call leaves the
client exactly as it was, and a second call made from the post-state of
the first, against the unchanged network behaviour, yields the same
result as the first. -/
theorem C9_repeated_check_deterministic (c : Client)
    (net : Client → String → ReqOutcome) (server : String) :
    (GetScheduledUpdateM c processUpdateResponse net server).2 = c
    ∧ (GetScheduledUpdateM
        (GetScheduledUpdateM c processUpdateResponse net server).2
        processUpdateResponse net server).1
      = (GetScheduledUpdateM c processUpdateResponse net server).1 :=
  ⟨rfl, rfl⟩

/-- Claim C10: on every error exit of FetchUpdate (transport failure,
unknown size, implausibly small size) the returned stream is none and the
returned length is exactly -1. -/
theorem C10_fetch_error_exits (c : Client) (outcome : ReqOutcome)
    (h : (FetchUpdate c outcome).err ≠ none) :
    (FetchUpdate c outcome).stream = none
    ∧ (FetchUpdate c outcome).length = -1 := by
  cases outcome with
  | error e => exact ⟨rfl, rfl⟩
  | ok r =>
    by_cases h0 : r.contentLength < 0
    · simp [FetchUpdate, h0]
    · by_cases h1 : r.contentLength < c.minImageSize
      · simp [FetchUpdate, h0, h1]
      · exact absurd (by simp [FetchUpdate, h0, h1]) h

/-- Witness for C10 at a concrete transport failure on the plain
client. -/
theorem C10_fetch_error_exits_witness :
    (FetchUpdate NewHttpClient (Except.error "connection refused")).stream = none
    ∧ (FetchUpdate NewHttpClient (Except.error "connection refused")).length = -1 :=
  C10_fetch_error_exits NewHttpClient (Except.error "connection refused") (by decide)

end Mender
